import Mathlib

set_option maxRecDepth 4000

/-
  Verification of the vibe-check scanner core against its design document.

  The development shallowly embeds the checker execution and result
  aggregation pipeline of the scanner: the `CheckResult` data model
  (src/types.ts), the per-checker scanning logic of the API-key checker
  (src/checkers/api-key-checker.ts) and the Supabase RLS checker
  (src/checkers/supabase/rls-checker.ts), the orchestrator loop
  (src/vibecheck.ts), the config helpers (src/utils/config-loader.ts),
  and the report renderers (src/reports).

  Conventions of the embedding:
  - the file-discovery collaborator (`findFiles`, `findSqlFiles`) is modelled
    by passing a checker the list of `SrcFile` values the collaborator would
    return; each `SrcFile` carries its root-relative path, its content and
    whether it is a text file;
  - JavaScript regular expressions are modelled by the small `Rx` engine
    below, which reproduces leftmost, preference-ordered (greedy, first
    alternative first) matching for the pattern shapes the scanner uses;
  - fallible operations are modelled with `Except String`; a thrown
    JavaScript exception is an `Except.error` carrying the stringified error;
  - wall-clock values (`new Date()...`) are threaded as an explicit `now`
    argument;
  - `JSON.stringify`/`JSON.parse` are modelled at the level of a JSON value
    tree: `generateJsonReport` produces the tree the source stringifies and
    the decoding functions read it back the way a consumer of the parsed
    JSON would.
-/

/-! ## Data model (src/types.ts) -/

/-- The `Severity` enumeration from src/types.ts. -/
inductive Severity where
  | critical
  | high
  | medium
  | low
deriving DecidableEq, Repr

/-- The string value of a `Severity` enum member (the enum is string-valued). -/
def Severity.toStr : Severity → String
  | .critical => "critical"
  | .high => "high"
  | .medium => "medium"
  | .low => "low"

/-- The optional structured `location` of a `CheckResult` (src/types.ts). -/
structure Location where
  file : String
  line : Nat
  code : String
deriving DecidableEq, Repr

/-- `CheckResult` from src/types.ts: one Finding.  The field set is the union
of the two generations of the interface (top-level `file`/`line`/`column`/
`code` plus the structured optional `location`); optional fields are `Option`,
`details` is a string whose emptiness plays the role of JavaScript falsiness. -/
structure CheckResult where
  id : String
  name : String
  description : String
  severity : Severity
  passed : Bool
  details : String
  location : Option Location := none
  file : Option String := none
  line : Option Nat := none
  column : Option Nat := none
  code : Option String := none
  recommendation : Option String := none
deriving DecidableEq, Repr

/-- One entry of `severityOverrides` in a config file (src/types.ts). -/
structure SeverityOverride where
  id : String
  severity : Severity
deriving DecidableEq, Repr

/-- `ConfigFile` from src/types.ts, restricted to the fields the pipeline
reads; absent arrays are represented by the empty list (an absent array and
an empty one behave identically in every consumer). -/
structure ConfigFile where
  ignorePatterns : List String := []
  skipCheckers : List String := []
  severityOverrides : List SeverityOverride := []
  ignoreIssues : List String := []
deriving Repr

/-- A file as handed to a checker by the file-discovery collaborator:
root-relative path, content, and whether `isTextFile` holds for it. -/
structure SrcFile where
  path : String
  content : String
  isText : Bool := true
deriving DecidableEq, Repr

/-! ## Character and string helpers -/

/-- ASCII lower-casing of one character (the scanner only compares ASCII). -/
def asciiLower (c : Char) : Char :=
  if 'A' ≤ c && c ≤ 'Z' then Char.ofNat (c.toNat + 32) else c

/-- `String.prototype.toLowerCase` on the character list. -/
def lowerChars (s : List Char) : List Char := s.map asciiLower

/-- JavaScript whitespace for `trim` and `\s`. -/
def isSpaceJs (c : Char) : Bool :=
  c = ' ' || c = '\t' || c = '\n' || c = '\r' || c = '\x0b' || c = '\x0c'

/-- `String.prototype.trim`. -/
def trimChars (s : List Char) : List Char :=
  ((s.dropWhile isSpaceJs).reverse.dropWhile isSpaceJs).reverse

/-- `String.prototype.trim` packaged on `String`. -/
def trimStr (s : String) : String := String.mk (trimChars s.data)

/-- Is `pre` a prefix of `s`? -/
def prefOf : List Char → List Char → Bool
  | [], _ => true
  | _ :: _, [] => false
  | a :: as, b :: bs => a = b && prefOf as bs

/-- Does `hay` contain `needle` as a contiguous substring
(`String.prototype.includes`)? -/
def hasSub (hay needle : List Char) : Bool :=
  prefOf needle hay ||
    match hay with
    | [] => false
    | _ :: t => hasSub t needle

/-- `includes` on `String`. -/
def containsSub (s sub : String) : Bool := hasSub s.data sub.data

/-- `content.split("\n")`, accumulator-based. -/
def splitNlAux : List Char → List Char → List String
  | [], acc => [String.mk acc.reverse]
  | c :: cs, acc =>
    if c = '\n' then String.mk acc.reverse :: splitNlAux cs []
    else splitNlAux cs (c :: acc)

/-- `content.split("\n")`. -/
def splitLines (s : String) : List String := splitNlAux s.data []

/-- Replace every occurrence of the character `c` by the string `r`
(one `.replace(/c/g, r)` step). -/
def replaceAllChar (c : Char) (r : List Char) : List Char → List Char
  | [] => []
  | x :: xs => (if x = c then r else [x]) ++ replaceAllChar c r xs

/-! ## HTML escaping and the issue card
(src/reports/html-report-generator.ts) -/

/-- `HtmlReportGenerator.escapeHtml`: the five sequential global replaces,
ampersand first. -/
def escapeHtml (s : String) : String :=
  String.mk
    (replaceAllChar '\'' "&#039;".data
      (replaceAllChar '"' "&quot;".data
        (replaceAllChar '>' "&gt;".data
          (replaceAllChar '<' "&lt;".data
            (replaceAllChar '&' "&amp;".data s.data)))))

/-- The `:line` suffix used next to a file name: rendered only when
`issue.location?.line` is truthy (a present, non-zero line number). -/
def locLineSuffix (loc : Option Location) : String :=
  match loc with
  | some l => if l.line = 0 then "" else ":" ++ toString l.line
  | none => ""

/-- The `fileDetail` fragment of `HtmlReportGenerator.generateIssueCard`. -/
def cardFileDetail (issue : CheckResult) : String :=
  match issue.file with
  | some f => "<small class=\"text-muted\">" ++ f ++ locLineSuffix issue.location ++ "</small>"
  | none => ""

/-- The plain-text rendition of an issue built by `generateIssueCard` for the
copy-to-clipboard `data-issue` attribute. -/
def cardIssueText (issue : CheckResult) : String :=
  "Issue: " ++ issue.name ++ "\n" ++
  "Severity: " ++ issue.severity.toStr ++ "\n" ++
  (match issue.file with
   | some f => "File: " ++ f ++ locLineSuffix issue.location ++ "\n"
   | none => "") ++
  (if issue.details = "" then "" else "Details: " ++ issue.details ++ "\n") ++
  (match issue.recommendation with
   | some r => if r = "" then "" else "Recommendation: " ++ r ++ "\n"
   | none => "") ++
  (match issue.location with
   | some l => if l.code = "" then "" else "Code:\n" ++ l.code
   | none => "")

/-- The conditional code block of the card: present only for a truthy
`issue.location?.code`, and escaped. -/
def cardCodeBlock (issue : CheckResult) : String :=
  match issue.location with
  | some l =>
    if l.code = "" then "" else
      "\n                <div class=\"code-block\">" ++ escapeHtml l.code ++ "</div>\n            "
  | none => ""

/-- The conditional recommendation block of the card: present only for a
truthy `issue.recommendation`, interpolated verbatim. -/
def cardRecommendationBlock (issue : CheckResult) : String :=
  match issue.recommendation with
  | some r =>
    if r = "" then "" else
      "\n                <div class=\"recommendation\">\n                    <strong>💡 Recommendation:</strong><br>\n                    " ++ r ++ "\n                </div>\n            "
  | none => ""

/-- `HtmlReportGenerator.generateIssueCard`: the card template.  Only the
`data-issue` attribute text and the `location.code` snippet pass through
`escapeHtml`; `name`, `severity`, `details` and `recommendation` are
interpolated verbatim. -/
def generateIssueCard (issue : CheckResult) (severityClass : String) : String :=
  "\n    <div class=\"card issue-card " ++ severityClass ++ "\" data-issue=\"" ++
    escapeHtml (cardIssueText issue) ++ "\">\n" ++
  "        <div class=\"card-body position-relative\">\n" ++
  "            <button class=\"copy-button\">Copy</button>\n" ++
  "            <div class=\"d-flex justify-content-between align-items-start mb-2\">\n" ++
  "                <h5 class=\"card-title mb-0\">" ++ issue.name ++ "</h5>\n" ++
  "                <span class=\"severity-badge severity-" ++ severityClass ++ "\">" ++
    issue.severity.toStr ++ "</span>\n" ++
  "            </div>\n" ++
  "            " ++ cardFileDetail issue ++ "\n" ++
  "            <p class=\"card-text mt-2\">" ++ issue.details ++ "</p>\n" ++
  "            " ++ cardCodeBlock issue ++ "\n" ++
  "            " ++ cardRecommendationBlock issue ++ "\n" ++
  "        </div>\n" ++
  "    </div>"

/-! ## A small regular-expression engine

JavaScript regexes are embedded through `Rx`.  `rxLens r s` lists the lengths
of the matches of `r` at the start of `s` in JavaScript preference order
(greedy repetitions longest first, alternatives left to right), so its head is
the length `RegExp.exec` would report there; `rxSearchFrom` is the unanchored
leftmost search and `rxExecAll` the `/g` iteration of `exec`.  Repetition is
over single-character classes, which covers every pattern of the scanner. -/

/-- Regex shapes used by the scanner: a one-character class, a literal,
sequencing, alternation, class repetition with bounds, and an optional part. -/
inductive Rx where
  | cls (p : Char → Bool)
  | lit (s : List Char)
  | seq (a b : Rx)
  | alt (a b : Rx)
  | rep (lo : Nat) (hi : Option Nat) (p : Char → Bool)
  | opt (r : Rx)

/-- Length of the maximal prefix run of characters satisfying `p`. -/
def maxRun (p : Char → Bool) : List Char → Nat
  | [] => 0
  | c :: cs => if p c then maxRun p cs + 1 else 0

/-- `[m, m-1, ..., lo]` (empty when `m < lo`): greedy preference order. -/
def downTo (m lo : Nat) : List Nat :=
  (List.range (m + 1 - lo)).map (fun i => m - i)

/-- Match lengths of `r` at the start of `s`, best (JavaScript-preferred)
first. -/
def rxLens : Rx → List Char → List Nat
  | .cls _, [] => []
  | .cls p, c :: _ => if p c then [1] else []
  | .lit l, s => if prefOf l s then [l.length] else []
  | .seq a b, s => (rxLens a s).flatMap (fun n => (rxLens b (s.drop n)).map (fun m => n + m))
  | .alt a b, s => rxLens a s ++ rxLens b s
  | .rep lo hi p, s =>
    let m := maxRun p s
    downTo (match hi with | none => m | some h => min m h) lo
  | .opt r, s => rxLens r s ++ [0]

/-- The length `exec` would match at the start of `s`, if any. -/
def rxFirstLen (r : Rx) (s : List Char) : Option Nat := (rxLens r s).head?

/-- Leftmost search: the first index `≥ i` (with `s` the suffix at `i`) where
`r` matches, with the preferred match length. -/
def rxSearchFrom (r : Rx) : Nat → List Char → Option (Nat × Nat)
  | i, [] => (rxFirstLen r []).map (fun n => (i, n))
  | i, c :: t =>
    match rxFirstLen r (c :: t) with
    | some n => some (i, n)
    | none => rxSearchFrom r (i + 1) t

/-- `RegExp.prototype.test`: does `r` match anywhere in `s`? -/
def rxTest (r : Rx) (s : String) : Bool := (rxSearchFrom r 0 s.data).isSome

/-- The `/g` exec loop: all matches with their indices, each search resuming
at `lastIndex = index + length` (advancing at least one character). -/
def rxExecAllAux (r : Rx) : Nat → Nat → List Char → List (Nat × List Char)
  | 0, _, _ => []
  | fuel + 1, i, s =>
    match rxSearchFrom r i s with
    | none => []
    | some (j, n) =>
      let here := s.drop (j - i)
      (j, here.take n) :: rxExecAllAux r fuel (j + max n 1) (here.drop (max n 1))

/-- All `/g` matches of `r` in `s` as `(index, matched text)` pairs. -/
def rxExecAll (r : Rx) (s : List Char) : List (Nat × List Char) :=
  rxExecAllAux r (s.length + 1) 0 s

/-- Fold a non-empty pattern list into nested `Rx.seq`. -/
def rseq : List Rx → Rx
  | [] => .lit []
  | [r] => r
  | r :: rs => .seq r (rseq rs)

/-- The `['"]` class: JavaScript single or double quote. -/
def isJsQuote (c : Char) : Bool := c = '\'' || c = '"'

/-- `[a-zA-Z0-9]`. -/
def isAlphaNumCh (c : Char) : Bool :=
  ('a' ≤ c && c ≤ 'z') || ('A' ≤ c && c ≤ 'Z') || ('0' ≤ c && c ≤ '9')

/-- A single case-insensitive literal character (for `/i` patterns). -/
def ciChar (a : Char) : Rx := .cls (fun c => asciiLower c = a)

/-- A case-insensitive literal (for `/i` patterns); `l` given lower-case. -/
def litCi (l : List Char) : Rx := rseq (l.map ciChar)

/-- `new RegExp(pattern.replace(/\*/g, ".*"))` for the glob-shaped exclusion
patterns: `*` becomes `.*` (any run) and `.` is the regex wildcard, every
other character matches itself. -/
def globToRx : List Char → Rx
  | [] => .lit []
  | c :: cs =>
    if c = '*' then .seq (.rep 0 none (fun _ => true)) (globToRx cs)
    else if c = '.' then .seq (.cls (fun _ => true)) (globToRx cs)
    else .seq (.cls (fun x => x = c)) (globToRx cs)

/-! ## The API key checker (src/checkers/api-key-checker.ts) -/

/-- One row of the `API_KEY_PATTERNS` table: service name, detection
pattern, and remediation text. -/
structure KeyPattern where
  service : String
  pattern : Rx
  recommendation : String

/-- `[a-zA-Z0-9_\-\.]` — the JWT-segment class of the Supabase pattern. -/
def isJwtCh (c : Char) : Bool := isAlphaNumCh c || c = '_' || c = '-' || c = '.'

/-- `[a-f0-9]` — lower-case hexadecimal. -/
def isHexLower (c : Char) : Bool := ('a' ≤ c && c ≤ 'f') || ('0' ≤ c && c ≤ '9')

/-- The Supabase row: a quoted three-part JWT (`eyJ…​.eyJ…​.…`) or a quoted
`sb(p|st|o)_` service key of 40–60 hex characters. -/
def supabasePattern : KeyPattern :=
  { service := "Supabase"
    pattern := .alt
      (rseq [.cls isJsQuote, .lit "eyJ".data, .rep 1 none isJwtCh,
             .cls (fun c => c = '.'), .lit "eyJ".data, .rep 1 none isJwtCh,
             .cls (fun c => c = '.'), .rep 1 none isJwtCh, .cls isJsQuote])
      (rseq [.cls isJsQuote, .lit "sb".data,
             .alt (.lit "p".data) (.alt (.lit "st".data) (.lit "o".data)),
             .cls (fun c => c = '_'), .rep 40 (some 60) isHexLower, .cls isJsQuote])
    recommendation := "Use environment variables for Supabase keys and ensure they are not exposed on the client side" }

/-- The OpenAI row: a quoted `sk-` key of at least 20 alphanumerics with an
optional `T3BlbkF…` tail. -/
def openaiPattern : KeyPattern :=
  { service := "OpenAI"
    pattern := rseq [.cls isJsQuote, .lit "sk-".data, .rep 20 none isAlphaNumCh,
                     .opt (rseq [.lit "T3BlbkF".data, .rep 1 none isAlphaNumCh]),
                     .cls isJsQuote]
    recommendation := "Store OpenAI API keys in server-side environment variables" }

/-- The Anthropic row: a quoted `sk-ant-api03-` key. -/
def anthropicPattern : KeyPattern :=
  { service := "Anthropic"
    pattern := rseq [.cls isJsQuote, .lit "sk-ant-api03-".data,
                     .rep 32 none (fun c => isAlphaNumCh c || c = '-'), .cls isJsQuote]
    recommendation := "Store Anthropic API keys in server-side environment variables" }

/-- The Google API row: a quoted `AIza` key of 35 tail characters. -/
def googlePattern : KeyPattern :=
  { service := "Google API"
    pattern := rseq [.cls isJsQuote, .lit "AIza".data,
                     .rep 35 (some 35) (fun c => isAlphaNumCh c || c = '_' || c = '-'),
                     .cls isJsQuote]
    recommendation := "Store Google API keys in server-side environment variables" }

/-- The GitHub row: a quoted `ghp_`/`ghs_` token of 36–40 alphanumerics. -/
def githubPattern : KeyPattern :=
  { service := "GitHub"
    pattern := rseq [.cls isJsQuote, .lit "gh".data,
                     .cls (fun c => c = 'p' || c = 's'), .cls (fun c => c = '_'),
                     .rep 36 (some 40) isAlphaNumCh, .cls isJsQuote]
    recommendation := "Remove GitHub tokens and use environment variables instead" }

/-- The AWS row: a quoted `AKIA` access key id of 16 upper-case
alphanumerics. -/
def awsPattern : KeyPattern :=
  { service := "AWS"
    pattern := rseq [.cls isJsQuote, .lit "AKIA".data,
                     .rep 16 (some 16) (fun c => ('0' ≤ c && c ≤ '9') || ('A' ≤ c && c ≤ 'Z')),
                     .cls isJsQuote]
    recommendation := "Remove AWS access keys and use environment variables or IAM roles instead" }

/-- `[a-zA-Z0-9_\-.~+\/]` — the value class of the generic pattern. -/
def isGenericKeyCh (c : Char) : Bool :=
  isAlphaNumCh c || c = '_' || c = '-' || c = '.' || c = '~' || c = '+' || c = '/'

/-- The generic row (case-insensitive): an `api`/`access` key assignment, or
any quoted run of 32–64 alphanumerics. -/
def genericPattern : KeyPattern :=
  { service := "Generic"
    pattern := .alt
      (rseq [.alt (litCi "api".data) (litCi "access".data),
             .opt (.cls (fun c => c = '-' || c = '_')), litCi "key".data,
             .opt (.cls isJsQuote), .rep 0 none isSpaceJs,
             .cls (fun c => c = '=' || c = ':'), .rep 0 none isSpaceJs,
             .cls isJsQuote, .rep 16 (some 64) isGenericKeyCh, .cls isJsQuote])
      (rseq [.cls isJsQuote, .rep 32 (some 64) isAlphaNumCh, .cls isJsQuote])
    recommendation := "Store API keys in server-side environment variables" }

/-- The `API_KEY_PATTERNS` table, in source order. -/
def API_KEY_PATTERNS : List KeyPattern :=
  [supabasePattern, openaiPattern, anthropicPattern, googlePattern,
   githubPattern, awsPattern, genericPattern]

/-- The `EXCLUDED_PATHS` glob list of the checker. -/
def EXCLUDED_PATHS : List String :=
  ["**/node_modules/**", "**/dist/**", "**/build/**", "**/.git/**",
   "**/package-lock.json", "**/yarn.lock", "**/pnpm-lock.yaml", "**/*.min.js"]

/-- Does the relative path match one of the patterns the way the checker
tests it (`new RegExp(pattern.replace(/\*/g, ".*")).test(relativeFile)`)? -/
def matchesAnyGlob (patterns : List String) (relativeFile : String) : Bool :=
  patterns.any (fun p => rxTest (globToRx p.data) relativeFile)

/-- The per-match skip on the line text: the lower-cased line signals a test
or example. -/
def lineHasTestMarker (line : String) : Bool :=
  let lowerLine := lowerChars line.data
  hasSub lowerLine "example".data || hasSub lowerLine "placeholder".data ||
  hasSub lowerLine "test".data || hasSub lowerLine "mock".data ||
  hasSub lowerLine "fake".data

/-- The per-match skip on the matched key (quotes stripped): the key looks
like a placeholder. -/
def keyLooksPlaceholder (key : List Char) : Bool :=
  hasSub key "your_api_key".data || hasSub key "xxx".data ||
  hasSub key "YOUR_".data || hasSub key "API_KEY_HERE".data

/-- The body of the `while ((match = pattern.exec(line)) !== null)` loop of
`apiKeyChecker.check` for one pattern on one line: every match yields a
`critical`, `passed:false` Finding unless the line carries a test/example
marker or the key looks like a placeholder. -/
def scanLineForPattern (kp : KeyPattern) (relativeFile : String) (lineIdx : Nat)
    (line : String) : List CheckResult :=
  (rxExecAll kp.pattern line.data).filterMap (fun m =>
    if lineHasTestMarker line then none
    else
      let key := m.2.filter (fun c => !isJsQuote c)
      if keyLooksPlaceholder key then none
      else some
        { id := "api-key-" ++ String.mk (lowerChars kp.service.data)
          name := "Exposed " ++ kp.service ++ " API Key"
          description := "Found a hardcoded " ++ kp.service ++ " API key in source code"
          severity := .critical
          passed := false
          file := some relativeFile
          line := some (lineIdx + 1)
          column := some (m.1 + 1)
          code := some (trimStr line)
          details := "Hardcoded " ++ kp.service ++ " API key found in " ++ relativeFile ++
            ":" ++ toString (lineIdx + 1)
          recommendation := some kp.recommendation })

/-- The per-file part of `apiKeyChecker.check`: skip excluded paths, paths in
`ignorePatterns`, binary files and unreadable (empty) content, then run every
pattern over every line. -/
def scanApiKeyFile (ignorePatterns : List String) (f : SrcFile) : List CheckResult :=
  if matchesAnyGlob EXCLUDED_PATHS f.path then []
  else if matchesAnyGlob ignorePatterns f.path then []
  else if !f.isText then []
  else if f.content = "" then []
  else
    API_KEY_PATTERNS.flatMap (fun kp =>
      (splitLines f.content).enum.flatMap (fun li =>
        scanLineForPattern kp f.path li.1 li.2))

/-- The files `scannedFileCount` counts: not excluded, not ignored, text. -/
def scannedFileCount (ignorePatterns : List String) (codeFiles : List SrcFile) : Nat :=
  (codeFiles.filter (fun f =>
    !matchesAnyGlob EXCLUDED_PATHS f.path &&
    !matchesAnyGlob ignorePatterns f.path && f.isText)).length

/-- The synthetic passing Finding returned when no code files were found. -/
def apiKeyPassNoFiles : CheckResult :=
  { id := "api-key-exposure", name := "API Key Exposure Check"
    description := "Check for hardcoded API keys in source code"
    severity := .critical, passed := true
    details := "No code files found to scan" }

/-- The synthetic passing Finding pushed when the scan found no issues. -/
def apiKeyPassClean (scanned : Nat) : CheckResult :=
  { id := "api-key-exposure", name := "API Key Exposure Check"
    description := "Check for hardcoded API keys in source code"
    severity := .critical, passed := true
    details := "No hardcoded API keys found in " ++ toString scanned ++ " scanned files" }

/-- The non-throwing path of `apiKeyChecker.check` as a function of the files
the discovery collaborator returned. -/
def apiKeyCheck (codeFiles : List SrcFile) (ignorePatterns : List String) : List CheckResult :=
  if codeFiles.isEmpty then [apiKeyPassNoFiles]
  else
    let results := codeFiles.flatMap (scanApiKeyFile ignorePatterns)
    if results.isEmpty then [apiKeyPassClean (scannedFileCount ignorePatterns codeFiles)]
    else results

/-- The error Finding of the checker's own `catch` block. -/
def apiKeyErrorFinding (err : String) : CheckResult :=
  { id := "api-key-error", name := "API Key Check Error"
    description := "An error occurred during the API key check"
    severity := .critical, passed := false
    details := "Error: " ++ err }

/-- `apiKeyChecker.check` including its `try`/`catch`: a failure of the
file-discovery collaborator (or any other exception inside the `try`) is
caught by the checker itself, which returns an error Finding instead of
letting the exception escape. -/
def apiKeyCheckerCheck (filesOrError : Except String (List SrcFile))
    (ignorePatterns : List String) : Except String (List CheckResult) :=
  match filesOrError with
  | .ok codeFiles => .ok (apiKeyCheck codeFiles ignorePatterns)
  | .error e => .ok [apiKeyErrorFinding e]

/-! ## The Supabase RLS checker (src/checkers/supabase/rls-checker.ts)

The three line regexes of the checker are embedded as bespoke leftmost
matchers over the lower-cased, trimmed line.  Each follows its regex exactly:
a literal, one-or-more whitespace, and a captured maximal run of the
character class, with the one backtracking point of the optional
`if not exists` group handled explicitly. -/

/-- `[a-z0-9_"]` — the captured table-name class. -/
def isTblCh (c : Char) : Bool :=
  ('a' ≤ c && c ≤ 'z') || ('0' ≤ c && c ≤ '9') || c = '_' || c = '"'

/-- `[\w"']` — the policy-name class. -/
def isWqCh (c : Char) : Bool := isAlphaNumCh c || c = '_' || c = '"' || c = '\''

/-- Consume the literal `l` from the front of `s`. -/
def dropLit : List Char → List Char → Option (List Char)
  | [], s => some s
  | _ :: _, [] => none
  | a :: as, b :: bs => if a = b then dropLit as bs else none

/-- Consume `\s+`: at least one whitespace character, greedily. -/
def dropWs1 : List Char → Option (List Char)
  | [] => none
  | c :: cs => if isSpaceJs c then some (cs.dropWhile isSpaceJs) else none

/-- Consume a maximal nonempty run of characters satisfying `p`, returning
the run and the rest. -/
def takeRun1 (p : Char → Bool) : List Char → Option (List Char × List Char)
  | [] => none
  | c :: cs =>
    if p c then some ((c :: cs).takeWhile p, (c :: cs).dropWhile p) else none

/-- Leftmost application: the first suffix position at which `f` succeeds. -/
def scanFor {α : Type} (f : List Char → Option α) : List Char → Option α
  | [] => f []
  | c :: cs =>
    match f (c :: cs) with
    | some x => some x
    | none => scanFor f cs

/-- The optional `(?:if\s+not\s+exists\s+)` group. -/
def matchIfNotExists (s : List Char) : Option (List Char) :=
  (dropLit "if".data s).bind (fun r => (dropWs1 r).bind (fun r =>
  (dropLit "not".data r).bind (fun r => (dropWs1 r).bind (fun r =>
  (dropLit "exists".data r).bind dropWs1))))

/-- `/create\s+table\s+(?:if\s+not\s+exists\s+)?([a-z0-9_"]+)/i` anchored at
the front of `s`: the optional group is preferred, and dropped when no table
name follows it. -/
def createTableAt (s : List Char) : Option (List Char) :=
  (dropLit "create".data s).bind (fun r => (dropWs1 r).bind (fun r =>
  (dropLit "table".data r).bind (fun r => (dropWs1 r).bind (fun r =>
    match (matchIfNotExists r).bind (takeRun1 isTblCh) with
    | some x => some x.1
    | none => (takeRun1 isTblCh r).map (fun x => x.1)))))

/-- `/alter\s+table\s+([a-z0-9_"]+)\s+enable\s+row\s+level\s+security/i`
anchored at the front of `s`. -/
def alterRlsAt (s : List Char) : Option (List Char) :=
  (dropLit "alter".data s).bind (fun r => (dropWs1 r).bind (fun r =>
  (dropLit "table".data r).bind (fun r => (dropWs1 r).bind (fun r =>
  (takeRun1 isTblCh r).bind (fun x => (dropWs1 x.2).bind (fun r =>
  (dropLit "enable".data r).bind (fun r => (dropWs1 r).bind (fun r =>
  (dropLit "row".data r).bind (fun r => (dropWs1 r).bind (fun r =>
  (dropLit "level".data r).bind (fun r => (dropWs1 r).bind (fun r =>
  (dropLit "security".data r).map (fun _ => x.1)))))))))))))

/-- `/create\s+policy\s+[\w"']+\s+on\s+([a-z0-9_"]+)/i` anchored at the front
of `s`. -/
def policyTableAt (s : List Char) : Option (List Char) :=
  (dropLit "create".data s).bind (fun r => (dropWs1 r).bind (fun r =>
  (dropLit "policy".data r).bind (fun r => (dropWs1 r).bind (fun r =>
  (takeRun1 isWqCh r).bind (fun x => (dropWs1 x.2).bind (fun r =>
  (dropLit "on".data r).bind (fun r => (dropWs1 r).bind (fun r =>
  (takeRun1 isTblCh r).map (fun y => y.1)))))))))

/-- `tableMatch[1].replace(/"/g, "").trim()`. -/
def cleanTableName (nm : List Char) : String :=
  trimStr (String.mk (nm.filter (fun c => c ≠ '"')))

/-- The per-table record the checker accumulates. -/
structure TableInfo where
  hasRls : Bool
  file : String
  line : Nat
  content : String
deriving DecidableEq, Repr

/-- One recorded public policy. -/
structure PolicyInfo where
  table : String
  file : String
  line : Nat
  policy : String
deriving DecidableEq, Repr

/-- The two accumulators of the scan (`tables` keyed in JavaScript-object
insertion order, and `publicPolicies`). -/
structure RlsState where
  tables : List (String × TableInfo)
  policies : List PolicyInfo
deriving Repr

/-- JavaScript object assignment `tables[k] = v`: replaces in place when the
key exists, appends otherwise. -/
def jsObjSet (tables : List (String × TableInfo)) (k : String) (v : TableInfo) :
    List (String × TableInfo) :=
  if tables.any (fun kv => kv.1 = k) then
    tables.map (fun kv => if kv.1 = k then (k, v) else kv)
  else tables ++ [(k, v)]

/-- `tables[k].hasRls = true`. -/
def markTableRls (tables : List (String × TableInfo)) (k : String) :
    List (String × TableInfo) :=
  tables.map (fun kv => if kv.1 = k then (kv.1, { kv.2 with hasRls := true }) else kv)

/-- Does the (already lower-cased) line qualify as a public policy line? -/
def linePublicPolicyCond (line : String) : Bool :=
  containsSub line "create policy" &&
    (containsSub line "using (true)" || containsSub line "using true" ||
     containsSub line "\"public\"" || containsSub line "\x27public\x27")

/-- One iteration of the line loop of `rlsChecker.check`: the create-table,
enable-RLS and public-policy checks applied in order to the lower-cased,
trimmed line. -/
def rlsProcessLine (relativeFile : String) (content : String) (st : RlsState)
    (idx : Nat) (rawLine : String) : RlsState :=
  let line := trimStr (String.mk (lowerChars rawLine.data))
  let st1 :=
    match scanFor createTableAt line.data with
    | some nm =>
      let info : TableInfo :=
        { hasRls := false, file := relativeFile, line := idx + 1, content := content }
      { st with tables := jsObjSet st.tables (cleanTableName nm) info }
    | none => st
  let st2 :=
    match scanFor alterRlsAt line.data with
    | some nm =>
      let tableName := cleanTableName nm
      if st1.tables.any (fun kv => kv.1 = tableName) then
        { st1 with tables := markTableRls st1.tables tableName }
      else
        let info : TableInfo :=
          { hasRls := true, file := relativeFile, line := idx + 1, content := content }
        { st1 with tables := jsObjSet st1.tables tableName info }
    | none => st1
  if linePublicPolicyCond line then
    match scanFor policyTableAt line.data with
    | some nm =>
      { st2 with policies := st2.policies ++
          [{ table := cleanTableName nm, file := relativeFile, line := idx + 1, policy := line }] }
    | none => st2
  else st2

/-- The Finding reported for a table without RLS. -/
def rlsTableFailure (tableName : String) (info : TableInfo) : CheckResult :=
  { id := "supabase-rls-disabled", name := "Missing Row Level Security"
    description := "Table \"" ++ tableName ++ "\" does not have Row Level Security enabled"
    severity := .high, passed := false
    file := some info.file
    location := some { file := info.file, line := info.line, code := info.content }
    details := "Table \"" ++ tableName ++ "\" in " ++ info.file ++
      " does not have RLS enabled, allowing unrestricted access"
    recommendation := some ("Enable RLS with: ALTER TABLE \"" ++ tableName ++
      "\" ENABLE ROW LEVEL SECURITY;") }

/-- The Finding reported for a public policy. -/
def rlsPolicyFailure (p : PolicyInfo) : CheckResult :=
  { id := "supabase-public-policy", name := "Public Access Policy"
    description := "Table \"" ++ p.table ++ "\" has a policy that grants public access"
    severity := .high, passed := false
    file := some p.file
    location := some { file := p.file, line := p.line, code := p.policy }
    details := "Table \"" ++ p.table ++ "\" has a policy that grants public access in " ++
      p.file ++ ":" ++ toString p.line
    recommendation := some "Replace \"using (true)\" with a proper access condition like \"using (auth.uid() = user_id)\"" }

/-- The synthetic passing Finding when no SQL files were found. -/
def rlsPassNoFiles : CheckResult :=
  { id := "supabase-rls", name := "Supabase RLS Policy Check"
    description := "Check for missing or insecure Row Level Security policies"
    severity := .high, passed := true
    details := "No SQL files found to scan" }

/-- The synthetic passing Finding when no issues were found. -/
def rlsPassAllGood : CheckResult :=
  { id := "supabase-rls", name := "Supabase RLS Policy Check"
    description := "Check for missing or insecure Row Level Security policies"
    severity := .high, passed := true
    details := "All tables have RLS enabled with proper access policies" }

/-- The non-throwing path of `rlsChecker.check` as a function of the SQL
files the discovery collaborator returned: scan every readable file line by
line, then report tables without RLS and public policies, or the single
passing Finding. -/
def rlsCheck (sqlFiles : List SrcFile) : List CheckResult :=
  if sqlFiles.isEmpty then [rlsPassNoFiles]
  else
    let st := sqlFiles.foldl (fun st f =>
      if f.content = "" then st
      else (splitLines f.content).enum.foldl
        (fun st li => rlsProcessLine f.path f.content st li.1 li.2) st)
      ⟨[], []⟩
    let results :=
      (st.tables.filterMap (fun kv =>
        if kv.2.hasRls then none else some (rlsTableFailure kv.1 kv.2))) ++
      st.policies.map rlsPolicyFailure
    if results.isEmpty then [rlsPassAllGood] else results

/-- The error Finding of the RLS checker's own `catch` block. -/
def rlsErrorFinding (err : String) : CheckResult :=
  { id := "supabase-rls-error", name := "Supabase RLS Check Error"
    description := "An error occurred during the Supabase RLS check"
    severity := .high, passed := false
    details := "Error: " ++ err }

/-- `rlsChecker.check` including its `try`/`catch`: a collaborator failure is
caught by the checker itself and turned into a returned error Finding. -/
def rlsCheckerCheck (filesOrError : Except String (List SrcFile)) :
    Except String (List CheckResult) :=
  match filesOrError with
  | .ok sqlFiles => .ok (rlsCheck sqlFiles)
  | .error e => .ok [rlsErrorFinding e]

/-! ## Config helpers (src/utils/config-loader.ts) and the result
post-processor -/

/-- `getSeverityOverride`: the first `severityOverrides` entry whose `id`
matches exactly, if any (`Array.prototype.find`). -/
def getSeverityOverride (id : String) (config : Option ConfigFile) : Option Severity :=
  match config with
  | none => none
  | some cfg => (cfg.severityOverrides.find? (fun o => o.id = id)).map (fun o => o.severity)

/-- `isIssueIgnored`: is the id listed in `ignoreIssues`? -/
def isIssueIgnored (id : String) (config : Option ConfigFile) : Bool :=
  match config with
  | none => false
  | some cfg => cfg.ignoreIssues.contains id

/-- Modelled from the spec: the note the Result Post-Processor appends to
`details` when it overrides a severity, recording old and new value.  The
post-processing pass itself is absent from the provided sources — only its
helpers `isIssueIgnored`/`getSeverityOverride` and their tests exist — so the
note's wording follows the spec's description (an appended note recording the
override, old to new). -/
def overrideNote (oldSev newSev : Severity) : String :=
  " (severity overridden: " ++ oldSev.toStr ++ " -> " ++ newSev.toStr ++ ")"

/-- Modelled from the spec: the per-Finding severity-override step of the
Result Post-Processor (spec section 4.3, item 2): a `passed:false` Finding
whose id has an override different from its current severity becomes a new
Finding with the overridden severity and the appended note; every other
Finding is returned unchanged.  Built on the source's
`getSeverityOverride`. -/
def applySeverityOverride (config : Option ConfigFile) (f : CheckResult) : CheckResult :=
  if f.passed then f
  else
    match getSeverityOverride f.id config with
    | none => f
    | some s =>
      if s = f.severity then f
      else { f with severity := s, details := f.details ++ overrideNote f.severity s }

/-- Modelled from the spec: the Result Post-Processor (spec section 4.3),
absent as a pass from the provided sources: drop every Finding whose id is in
`ignoreIssues` (via the source's `isIssueIgnored`), apply the severity
override to each remaining Finding, preserve order otherwise. -/
def postProcessResults (results : List CheckResult) (config : Option ConfigFile) :
    List CheckResult :=
  (results.filter (fun r => !isIssueIgnored r.id config)).map (applySeverityOverride config)

/-! ## The orchestrator (src/vibecheck.ts) -/

/-- A registered checker as the orchestrator sees it: id, display name, and
the outcome of its `check()` call (`Except.error` models a thrown
exception). -/
structure RunChecker where
  id : String
  name : String
  run : Except String (List CheckResult)

/-- The synthetic Finding `VibeCheck.runCheckers` pushes when a checker
throws. -/
def checkerErrorFinding (c : RunChecker) (err : String) : CheckResult :=
  { id := c.id ++ "-error", name := c.name ++ " Error"
    description := "An error occurred during the " ++ c.name ++ " check"
    severity := .medium, passed := false
    details := "Error: " ++ err }

/-- The checker loop of `VibeCheck.runCheckers`: run each enabled checker in
order, append its Findings, and on a thrown exception append the synthetic
error Finding instead and continue. -/
def runCheckers : List RunChecker → List CheckResult
  | [] => []
  | c :: rest =>
    (match c.run with
     | .ok rs => rs
     | .error e => [checkerErrorFinding c e]) ++ runCheckers rest

/-- `VibeCheckOptions` as assembled by the CLI `scan` action (src/index.ts):
defaulted fields of the `VibeCheck` constructor plus the loaded config
object, which is carried in the options but never consulted by
`VibeCheck`. -/
structure VibeCheckOptions where
  directory : String
  ignorePatterns : List String := []
  skipCheckers : List String := []
  verbose : Bool := false
  showPassed : Bool := true
  format : String := "markdown"
  outputFile : Option String := none
  config : Option ConfigFile := none

/-- The CLI `scan` action's option assembly: `skipCheckers` is exactly the
`--skip` list from the command line; the config loaded from disk is attached
as `config` and nothing from it is merged into the other fields. -/
def mkCliScanOptions (dir : String) (cliIgnore cliSkip : List String)
    (config : Option ConfigFile) : VibeCheckOptions :=
  { directory := dir, ignorePatterns := cliIgnore, skipCheckers := cliSkip
    verbose := false, showPassed := true, format := "markdown"
    outputFile := none, config := config }

/-- The checker filter of the `VibeCheck` constructor and of `runCheckers`:
the registry minus the checkers whose id is in `options.skipCheckers`. -/
def availableCheckers (registry : List RunChecker) (opts : VibeCheckOptions) :
    List RunChecker :=
  registry.filter (fun c => !opts.skipCheckers.contains c.id)

/-- `VibeCheck.runCheckers` end to end: filter the registry by the options'
skip list, then run the enabled checkers. -/
def vibeCheckRunCheckers (registry : List RunChecker) (opts : VibeCheckOptions) :
    List CheckResult :=
  runCheckers (availableCheckers registry opts)

/-! ## Report generators (src/reports/report-generator.ts) -/

/-- The ` (file:line)` detail used by the text and markdown renderers:
present for a truthy `issue.file`, with the line suffix for a truthy
top-level `issue.line`. -/
def reportFileDetail (issue : CheckResult) : String :=
  match issue.file with
  | some f =>
    " (" ++ f ++
      (match issue.line with
       | some n => if n = 0 then "" else ":" ++ toString n
       | none => "") ++ ")"
  | none => ""

/-- `addIssueGroupToTextReport` for one issue. -/
def textIssueLines (issue : CheckResult) : List String :=
  ["✗ " ++ issue.name ++ reportFileDetail issue] ++
  (if issue.details = "" then [] else ["  " ++ issue.details]) ++
  (match issue.code with
   | some c => if c = "" then [] else ["  Code:", "  " ++ c]
   | none => []) ++
  (match issue.recommendation with
   | some r => if r = "" then [] else ["  Recommendation: " ++ r]
   | none => []) ++
  [""]

/-- The passed-check lines of the text report for one result. -/
def textPassedLines (result : CheckResult) : List String :=
  ["✓ " ++ result.name] ++
  (if result.details = "" then [] else ["  " ++ result.details]) ++
  [""]

/-- `ReportGenerator.generateTextReport`. -/
def generateTextReport (results : List CheckResult) (showPassed : Bool) (now : String) :
    String :=
  let failedResults := results.filter (fun r => !r.passed)
  let passedResults := results.filter (fun r => r.passed)
  let criticalIssues := failedResults.filter (fun r => r.severity = Severity.critical)
  let highIssues := failedResults.filter (fun r => r.severity = Severity.high)
  let mediumIssues := failedResults.filter (fun r => r.severity = Severity.medium)
  let lowIssues := failedResults.filter (fun r => r.severity = Severity.low)
  String.intercalate "\n" (
    ["VIBECHECK SCAN RESULTS", "======================", "",
     "Scan completed on " ++ now,
     "Total checks: " ++ toString results.length,
     "Passed: " ++ toString passedResults.length,
     "Failed: " ++ toString failedResults.length, ""] ++
    (if criticalIssues.length > 0 then
      ["CRITICAL ISSUES (" ++ toString criticalIssues.length ++ ")", "-----------------"] ++
        criticalIssues.flatMap textIssueLines
     else []) ++
    (if highIssues.length > 0 then
      ["HIGH SEVERITY ISSUES (" ++ toString highIssues.length ++ ")", "--------------------"] ++
        highIssues.flatMap textIssueLines
     else []) ++
    (if mediumIssues.length > 0 then
      ["MEDIUM SEVERITY ISSUES (" ++ toString mediumIssues.length ++ ")", "----------------------"] ++
        mediumIssues.flatMap textIssueLines
     else []) ++
    (if lowIssues.length > 0 then
      ["LOW SEVERITY ISSUES (" ++ toString lowIssues.length ++ ")", "-------------------"] ++
        lowIssues.flatMap textIssueLines
     else []) ++
    (if showPassed && passedResults.length > 0 then
      ["PASSED CHECKS (" ++ toString passedResults.length ++ ")", "--------------"] ++
        passedResults.flatMap textPassedLines
     else []) ++
    ["", "Generated by VibeCheck - https://github.com/yourusername/vibecheck"])

/-- `addIssueGroupToMarkdownReport` for one issue. -/
def mdIssueLines (issue : CheckResult) : List String :=
  ["### ❌ " ++ issue.name ++ reportFileDetail issue, ""] ++
  (if issue.details = "" then [] else [issue.details, ""]) ++
  (match issue.code with
   | some c => if c = "" then [] else ["```", c, "```", ""]
   | none => []) ++
  (match issue.recommendation with
   | some r => if r = "" then [] else ["**Recommendation:**", r, ""]
   | none => [])

/-- The passed-check lines of the markdown report for one result. -/
def mdPassedLines (result : CheckResult) : List String :=
  ["### ✅ " ++ result.name, ""] ++
  (if result.details = "" then [] else [result.details, ""])

/-- `ReportGenerator.generateMarkdownReport`. -/
def generateMarkdownReport (results : List CheckResult) (showPassed : Bool) (now : String) :
    String :=
  let failedResults := results.filter (fun r => !r.passed)
  let passedResults := results.filter (fun r => r.passed)
  let criticalIssues := failedResults.filter (fun r => r.severity = Severity.critical)
  let highIssues := failedResults.filter (fun r => r.severity = Severity.high)
  let mediumIssues := failedResults.filter (fun r => r.severity = Severity.medium)
  let lowIssues := failedResults.filter (fun r => r.severity = Severity.low)
  String.intercalate "\n" (
    ["# VibeCheck Scan Results", "", "## Summary", "",
     "- **Scan completed on:** " ++ now,
     "- **Total checks:** " ++ toString results.length,
     "- **Passed:** " ++ toString passedResults.length,
     "- **Failed:** " ++ toString failedResults.length, ""] ++
    (if criticalIssues.length > 0 then
      ["## Critical Issues (" ++ toString criticalIssues.length ++ ")", ""] ++
        criticalIssues.flatMap mdIssueLines
     else []) ++
    (if highIssues.length > 0 then
      ["## High Severity Issues (" ++ toString highIssues.length ++ ")", ""] ++
        highIssues.flatMap mdIssueLines
     else []) ++
    (if mediumIssues.length > 0 then
      ["## Medium Severity Issues (" ++ toString mediumIssues.length ++ ")", ""] ++
        mediumIssues.flatMap mdIssueLines
     else []) ++
    (if lowIssues.length > 0 then
      ["## Low Severity Issues (" ++ toString lowIssues.length ++ ")", ""] ++
        lowIssues.flatMap mdIssueLines
     else []) ++
    (if showPassed && passedResults.length > 0 then
      ["## Passed Checks (" ++ toString passedResults.length ++ ")", ""] ++
        passedResults.flatMap mdPassedLines
     else []) ++
    ["---", "*Generated by [VibeCheck](https://github.com/yourusername/vibecheck)*"])

/-! ## The JSON report (`ReportGenerator.generateJsonReport`)

`JSON.stringify`/`JSON.parse` are modelled at the level of the JSON value
tree: `findingToJson` is the plain-object view `JSON.stringify` serialises
(fields holding `undefined` are omitted, exactly as `stringify` omits them),
`jsonStringify` is the serialisation used for the report file's content, and
the `...OfJson` functions read a parsed tree back the way a JSON consumer
would, by key lookup. -/

/-- A JSON value. -/
inductive Json where
  | null
  | bool (b : Bool)
  | num (n : Nat)
  | str (s : String)
  | arr (elems : List Json)
  | obj (members : List (String × Json))

/-- A field present only when the optional string value is. -/
def optStrField (key : String) : Option String → List (String × Json)
  | none => []
  | some v => [(key, .str v)]

/-- A field present only when the optional numeric value is. -/
def optNatField (key : String) : Option Nat → List (String × Json)
  | none => []
  | some v => [(key, .num v)]

/-- The JSON view of a `location` object. -/
def locationToJson (l : Location) : Json :=
  .obj [("file", .str l.file), ("line", .num l.line), ("code", .str l.code)]

/-- The JSON view of one `CheckResult`, with `undefined` fields omitted. -/
def findingToJson (r : CheckResult) : Json :=
  .obj ([("id", .str r.id), ("name", .str r.name), ("description", .str r.description),
         ("severity", .str r.severity.toStr), ("passed", .bool r.passed),
         ("details", .str r.details)] ++
    (match r.location with
     | none => []
     | some l => [("location", locationToJson l)]) ++
    optStrField "file" r.file ++ optNatField "line" r.line ++
    optNatField "column" r.column ++ optStrField "code" r.code ++
    optStrField "recommendation" r.recommendation)

/-- `ReportGenerator.generateJsonReport` before stringification: the
`{summary, results}` object. -/
def generateJsonReport (results : List CheckResult) (now : String) : Json :=
  .obj [("summary", .obj
          [("total", .num results.length),
           ("passed", .num (results.filter (fun r => r.passed)).length),
           ("failed", .num (results.filter (fun r => !r.passed)).length),
           ("timestamp", .str now)]),
        ("results", .arr (results.map findingToJson))]

/-- String content escaping for the serialiser (backslash, quote, newline). -/
def jsonEscape (s : String) : String :=
  String.mk (s.data.flatMap (fun c =>
    if c = '\\' then ['\\', '\\']
    else if c = '"' then ['\\', '"']
    else if c = '\n' then ['\\', 'n']
    else [c]))

mutual
/-- A compact `JSON.stringify`. -/
def jsonStringify : Json → String
  | .null => "null"
  | .bool b => if b then "true" else "false"
  | .num n => toString n
  | .str s => "\"" ++ jsonEscape s ++ "\""
  | .arr es => "[" ++ String.intercalate "," (jsonStringifyArr es) ++ "]"
  | .obj ms => "\x7b" ++ String.intercalate "," (jsonStringifyObj ms) ++ "\x7d"
/-- Serialised array elements. -/
def jsonStringifyArr : List Json → List String
  | [] => []
  | e :: es => jsonStringify e :: jsonStringifyArr es
/-- Serialised object members. -/
def jsonStringifyObj : List (String × Json) → List String
  | [] => []
  | (k, v) :: ms => ("\"" ++ jsonEscape k ++ "\":" ++ jsonStringify v) :: jsonStringifyObj ms
end

/-- Key lookup in a parsed JSON object (first match). -/
def jLookup : List (String × Json) → String → Option Json
  | [], _ => none
  | (k, v) :: rest, key => if k = key then some v else jLookup rest key

/-- Read a JSON string value. -/
def asStr : Option Json → Option String
  | some (.str s) => some s
  | _ => none

/-- Read a JSON numeric value. -/
def asNat : Option Json → Option Nat
  | some (.num n) => some n
  | _ => none

/-- Read a JSON boolean value. -/
def asBool : Option Json → Option Bool
  | some (.bool b) => some b
  | _ => none

/-- Parse a severity string back into the enumeration. -/
def severityOfStr (s : String) : Option Severity :=
  if s = "critical" then some .critical
  else if s = "high" then some .high
  else if s = "medium" then some .medium
  else if s = "low" then some .low
  else none

/-- Read a `location` object back. -/
def locationOfJson : Json → Option Location
  | .obj ms =>
    match asStr (jLookup ms "file"), asNat (jLookup ms "line"), asStr (jLookup ms "code") with
    | some f, some l, some c => some { file := f, line := l, code := c }
    | _, _, _ => none
  | _ => none

/-- Read one Finding back from its parsed JSON object. -/
def findingOfJson : Json → Option CheckResult
  | .obj ms =>
    match asStr (jLookup ms "id"), asStr (jLookup ms "name"),
          asStr (jLookup ms "description"),
          (asStr (jLookup ms "severity")).bind severityOfStr,
          asBool (jLookup ms "passed"), asStr (jLookup ms "details") with
    | some id, some name, some desc, some sev, some passed, some details =>
      some { id := id, name := name, description := desc, severity := sev
             passed := passed, details := details
             location := (jLookup ms "location").bind locationOfJson
             file := asStr (jLookup ms "file")
             line := asNat (jLookup ms "line")
             column := asNat (jLookup ms "column")
             code := asStr (jLookup ms "code")
             recommendation := asStr (jLookup ms "recommendation") }
    | _, _, _, _, _, _ => none
  | _ => none

/-- Decode every element of a parsed `results` array, failing if any
element does. -/
def decodeFindings : List Json → Option (List CheckResult)
  | [] => some []
  | j :: js =>
    match findingOfJson j, decodeFindings js with
    | some r, some rs => some (r :: rs)
    | _, _ => none

/-- The decoded content of a parsed JSON report. -/
structure JsonReportData where
  total : Nat
  passedCount : Nat
  failedCount : Nat
  timestamp : String
  results : List CheckResult
deriving DecidableEq, Repr

/-- Read a whole `{summary, results}` report back. -/
def reportOfJson : Json → Option JsonReportData
  | .obj ms =>
    match jLookup ms "summary", jLookup ms "results" with
    | some (.obj sm), some (.arr rs) =>
      match asNat (jLookup sm "total"), asNat (jLookup sm "passed"),
            asNat (jLookup sm "failed"), asStr (jLookup sm "timestamp"),
            decodeFindings rs with
      | some t, some p, some f, some ts, some res =>
        some { total := t, passedCount := p, failedCount := f, timestamp := ts, results := res }
      | _, _, _, _, _ => none
    | _, _ => none
  | _ => none

/-! ## The HTML page (src/reports/html-report-generator.ts)

In the literals below a brace of the CSS/JavaScript text is written `\x7b` /
`\x7d` and an apostrophe `\x27`. -/

/-- `HtmlReportGenerator.generateSeveritySection`: empty for an empty group,
otherwise a collapsible card section containing one issue card per
finding. -/
def generateSeveritySection (title : String) (issues : List CheckResult)
    (severityClass : String) : String :=
  if issues.length = 0 then "" else
  "\n    <div class=\"card mb-3\">\n        <div class=\"card-header bg-light\">\n            <h5 class=\"mb-0\">\n                <button class=\"btn btn-link\" type=\"button\" data-bs-toggle=\"collapse\" data-bs-target=\"#" ++
  severityClass ++ "Section\">\n                    " ++ title ++ " (" ++
  toString issues.length ++ ")\n                </button>\n            </h5>\n        </div>\n        <div id=\"" ++
  severityClass ++ "Section\" class=\"collapse\">\n            <div class=\"card-body\">\n                " ++
  String.join (issues.map (fun issue => generateIssueCard issue severityClass)) ++
  "\n            </div>\n        </div>\n    </div>"

/-- One passed-check alert of `generatePassedSection`; `name` and `details`
are interpolated verbatim. -/
def passedAlert (result : CheckResult) : String :=
  "\n                    <div class=\"alert alert-success\">\n                        <strong>✓ " ++
  result.name ++ "</strong>\n                        " ++
  (if result.details = "" then ""
   else "<p class=\"mb-0 mt-2\">" ++ result.details ++ "</p>") ++
  "\n                    </div>\n                "

/-- `HtmlReportGenerator.generatePassedSection`. -/
def generatePassedSection (passedResults : List CheckResult) : String :=
  if passedResults.length = 0 then "" else
  "\n    <div class=\"card mb-3\">\n        <div class=\"card-header bg-light\">\n            <h5 class=\"mb-0\">\n                <button class=\"btn btn-link\" type=\"button\" data-bs-toggle=\"collapse\" data-bs-target=\"#passedSection\">\n                    Passed Checks (" ++
  toString passedResults.length ++
  ")\n                </button>\n            </h5>\n        </div>\n        <div id=\"passedSection\" class=\"collapse show\">\n            <div class=\"card-body\">\n                " ++
  String.join (passedResults.map passedAlert) ++
  "\n            </div>\n        </div>\n    </div>"

/-- The literal head of the HTML page up to the summary cards (doctype, meta,
stylesheet link and the embedded CSS). -/
def htmlPageHead : String :=
  "<!DOCTYPE html>\n    <html>\n    <head>\n        <meta charset=\"UTF-8\">\n        <meta name=\"viewport\" content=\"width=device-width, initial-scale=1.0\">\n        <title>VibeCheck Security Report</title>\n        <link href=\"https://cdn.jsdelivr.net/npm/bootstrap@5.3.3/dist/css/bootstrap.min.css\" rel=\"stylesheet\">\n        <style>\n            :root \x7b\n                --critical: #dc3545;\n                --high: #fd7e14;\n                --medium: #ffc107;\n                --low: #0dcaf0;\n                --success: #198754;\n            \x7d\n            .severity-badge \x7b\n                display: inline-block;\n                padding: 0.25em 0.6em;\n                font-size: 0.75em;\n                font-weight: 700;\n                border-radius: 0.375rem;\n                text-transform: uppercase;\n            \x7d\n            .severity-critical \x7b background-color: var(--critical); color: white; \x7d\n            .severity-high \x7b background-color: var(--high); color: white; \x7d\n            .severity-medium \x7b background-color: var(--medium); color: black; \x7d\n            .severity-low \x7b background-color: var(--low); color: black; \x7d\n            .severity-success \x7b background-color: var(--success); color: white; \x7d\n            \n            .issue-card \x7b\n                margin-bottom: 1rem;\n                border-left: 4px solid transparent;\n            \x7d\n            .issue-card.critical \x7b border-left-color: var(--critical); \x7d\n            .issue-card.high \x7b border-left-color: var(--high); \x7d\n            .issue-card.medium \x7b border-left-color: var(--medium); \x7d\n            .issue-card.low \x7b border-left-color: var(--low); \x7d\n            \n            .copy-button \x7b\n                position: absolute;\n                top: 1rem;\n                right: 1rem;\n                padding: 0.25rem 0.5rem;\n                font-size: 0.875rem;\n                color: #6c757d;\n                background: #f8f9fa;\n                border: 1px solid #dee2e6;\n                border-radius: 0.375rem;\n                cursor: pointer;\n                transition: all 0.2s;\n            \x7d\n            .copy-button:hover \x7b\n                background: #e9ecef;\n                color: #495057;\n            \x7d\n            .copy-button.copied \x7b\n                background: var(--success);\n                color: white;\n                border-color: var(--success);\n            \x7d\n            \n            .code-block \x7b\n                background: #f8f9fa;\n                padding: 1rem;\n                border-radius: 0.375rem;\n                font-family: monospace;\n                white-space: pre-wrap;\n                margin: 0.5rem 0;\n            \x7d\n            \n            .recommendation \x7b\n                background: #e9ecef;\n                padding: 1rem;\n                border-radius: 0.375rem;\n                margin: 0.5rem 0;\n            \x7d\n            \n            #search \x7b\n                max-width: 300px;\n            \x7d\n            \n            .stats-card \x7b\n                transition: transform 0.2s;\n            \x7d\n            .stats-card:hover \x7b\n                transform: translateY(-2px);\n            \x7d\n        </style>\n    </head>\n    <body>\n        <nav class=\"navbar navbar-dark bg-dark\">\n            <div class=\"container-fluid\">\n                <span class=\"navbar-brand mb-0 h1\">⚡ VibeCheck Security Report</span>\n                <input type=\"text\" id=\"search\" class=\"form-control form-control-sm\" placeholder=\"Search issues...\">\n            </div>\n        </nav>\n\n        <div class=\"container mt-4\">\n            <!-- Summary Cards -->\n            <div class=\"row mb-4\">\n"

/-- The literal tail of the HTML page: the bootstrap bundle and the search
filter plus copy-button script. -/
def htmlPageTail : String :=
  "\n        </div>\n\n        <script src=\"https://cdn.jsdelivr.net/npm/bootstrap@5.3.3/dist/js/bootstrap.bundle.min.js\"></script>\n        <script>\n            document.getElementById(\x27search\x27).addEventListener(\x27input\x27, function(e) \x7b\n                const searchTerm = e.target.value.toLowerCase();\n                document.querySelectorAll(\x27.issue-card\x27).forEach(card => \x7b\n                    const text = card.textContent.toLowerCase();\n                    card.style.display = text.includes(searchTerm) ? \x27block\x27 : \x27none\x27;\n                \x7d);\n            \x7d);\n\n            document.querySelectorAll(\x27.copy-button\x27).forEach(button => \x7b\n                button.addEventListener(\x27click\x27, async function() \x7b\n                    const card = this.closest(\x27.issue-card\x27);\n                    const issueData = card.getAttribute(\x27data-issue\x27);\n                    \n                    try \x7b\n                        await navigator.clipboard.writeText(issueData);\n                        this.textContent = \x27✓ Copied!\x27;\n                        this.classList.add(\x27copied\x27);\n                        setTimeout(() => \x7b\n                            this.textContent = \x27Copy\x27;\n                            this.classList.remove(\x27copied\x27);\n                        \x7d, 2000);\n                    \x7d catch (err) \x7b\n                        console.error(\x27Failed to copy:\x27, err);\n                        this.textContent = \x27❌ Error\x27;\n                        setTimeout(() => \x7b\n                            this.textContent = \x27Copy\x27;\n                        \x7d, 2000);\n                    \x7d\n                \x7d);\n            \x7d);\n        </script>\n    </body>\n    </html>"

/-- One summary tile of the page. -/
def summaryCard (cardClass title : String) (count : Nat) : String :=
  "                <div class=\"col-md-3\">\n                    <div class=\"card stats-card " ++
  cardClass ++ "\">\n                        <div class=\"card-body\">\n                            <h6 class=\"card-title\">" ++
  title ++ "</h6>\n                            <h2 class=\"card-text\">" ++
  toString count ++ "</h2>\n                        </div>\n                    </div>\n                </div>\n"

/-- `HtmlReportGenerator.generateHtml`: summary tiles, then the accordion of
severity sections and the passed section, then the page script. -/
def generateHtml (results : List CheckResult) : String :=
  let failedResults := results.filter (fun r => !r.passed)
  let passedResults := results.filter (fun r => r.passed)
  let criticalIssues := failedResults.filter (fun r => r.severity = Severity.critical)
  let highIssues := failedResults.filter (fun r => r.severity = Severity.high)
  let mediumIssues := failedResults.filter (fun r => r.severity = Severity.medium)
  let lowIssues := failedResults.filter (fun r => r.severity = Severity.low)
  htmlPageHead ++
  summaryCard "bg-danger text-white" "Critical Issues" criticalIssues.length ++
  summaryCard "bg-warning" "High Severity" highIssues.length ++
  summaryCard "bg-info text-white" "Medium/Low" (mediumIssues.length + lowIssues.length) ++
  summaryCard "bg-success text-white" "Passed Checks" passedResults.length ++
  "            </div>\n\n            <!-- Issues List -->\n            <div class=\"accordion\" id=\"issuesAccordion\">\n                " ++
  generateSeveritySection "Critical Issues" criticalIssues "critical" ++ "\n                " ++
  generateSeveritySection "High Severity Issues" highIssues "high" ++ "\n                " ++
  generateSeveritySection "Medium Severity Issues" mediumIssues "medium" ++ "\n                " ++
  generateSeveritySection "Low Severity Issues" lowIssues "low" ++ "\n                " ++
  generatePassedSection passedResults ++
  "\n            </div>" ++
  htmlPageTail

/-! ## Report dispatch (src/reports/report-generator.ts `generateReportFile`
and src/reports/index.ts `generateReport`) -/

/-- The content selection of `ReportGenerator.generateReportFile`: the
`switch (format)` with cases `json` and `text`, and `markdown` sharing the
`default` arm, so any other format string renders markdown. -/
def generateReportFileContent (results : List CheckResult) (format : String)
    (showPassed : Bool) (now : String) : String :=
  if format = "json" then jsonStringify (generateJsonReport results now)
  else if format = "text" then generateTextReport results showPassed now
  else generateMarkdownReport results showPassed now

/-- `generateReport` from src/reports/index.ts, modelled as producing the
content written to the report file (the source returns the written file's
path): `html` selects the `HtmlReportGenerator`, everything else goes to
`ReportGenerator.generateReportFile` with its default `showPassed = true`.
The `Except` result is the error channel of the modelled fallible call; no
branch of the source ever throws an unsupported-format error. -/
def generateReport (results : List CheckResult) (format : String) (now : String) :
    Except String String :=
  if format = "html" then .ok (generateHtml results)
  else .ok (generateReportFileContent results format true now)

/-! ## Concrete fixtures used by the claim theorems -/

/-- A Finding whose `details` carries markup, as a scanned repository can
produce (checkers copy source-line text into `details`). -/
def c1BadFinding : CheckResult :=
  { id := "api-key-generic", name := "Exposed Generic API Key"
    description := "Found a hardcoded Generic API key in source code"
    severity := .critical, passed := false
    details := "<script>alert(1)</script>"
    file := some "config.js"
    location := some { file := "config.js", line := 3, code := "const k = 1" }
    recommendation := some "Store API keys in server-side environment variables" }

/-- A checker whose `check()` returns normally. -/
def c2OkChecker : RunChecker :=
  { id := "cors-checker", name := "CORS Configuration Check"
    run := .ok [{ id := "cors-config", name := "CORS Configuration Check"
                  description := "Check for misconfigurations in CORS settings"
                  severity := .high, passed := true
                  details := "No server-side files found to scan" }] }

/-- A checker whose `check()` throws. -/
def c2FailChecker : RunChecker :=
  { id := "rls", name := "Supabase RLS", run := .error "boom" }

/-- A config ignoring one Finding id. -/
def c4Config : ConfigFile := { ignoreIssues := ["api-key-openai"] }

/-- A result set containing the ignored id and another Finding. -/
def c4Results : List CheckResult :=
  [{ id := "api-key-openai", name := "Exposed OpenAI API Key"
     description := "Found a hardcoded OpenAI API key in source code"
     severity := .critical, passed := false
     details := "Hardcoded OpenAI API key found in app.js:1" },
   { id := "jwt-local-storage", name := "JWT Token in Browser Storage"
     description := "JWT tokens stored in localStorage or sessionStorage can be vulnerable to XSS attacks"
     severity := .high, passed := false
     details := "Found potential JWT token stored in browser storage in app.js:9" }]

/-- A config overriding the severity of one Finding id. -/
def c5Config : ConfigFile :=
  { severityOverrides := [{ id := "jwt-local-storage", severity := .critical }] }

/-- A failed Finding whose id the override matches. -/
def c5Finding : CheckResult :=
  { id := "jwt-local-storage", name := "JWT Token in Browser Storage"
    description := "JWT tokens stored in localStorage or sessionStorage can be vulnerable to XSS attacks"
    severity := .high, passed := false
    details := "Found potential JWT token stored in browser storage in app.js:9" }

/-- A one-Finding result set for the format-dispatch counterexample. -/
def c6Results : List CheckResult :=
  [{ id := "api-key-openai", name := "Exposed OpenAI API Key"
     description := "Found a hardcoded OpenAI API key in source code"
     severity := .critical, passed := false
     details := "Hardcoded OpenAI API key found in app.js:1" }]

/-- The Finding returned by the first registry checker of the skip-list
counterexample. -/
def c8FindingA : CheckResult :=
  { id := "api-key-exposure", name := "API Key Exposure Check"
    description := "Check for hardcoded API keys in source code"
    severity := .critical, passed := true
    details := "No code files found to scan" }

/-- The Finding returned by the second registry checker of the skip-list
counterexample. -/
def c8FindingB : CheckResult :=
  { id := "supabase-rls-disabled", name := "Missing Row Level Security"
    description := "Table \"users\" does not have Row Level Security enabled"
    severity := .high, passed := false
    details := "Table \"users\" in schema.sql does not have RLS enabled, allowing unrestricted access" }

/-- A two-checker registry, first checker. -/
def c8CheckerA : RunChecker :=
  { id := "api-key-checker", name := "API Key Exposure Check", run := .ok [c8FindingA] }

/-- A two-checker registry, second checker. -/
def c8CheckerB : RunChecker :=
  { id := "rls", name := "Supabase RLS", run := .ok [c8FindingB] }

/-- A config file whose `skipCheckers` lists the second checker. -/
def c8Config : ConfigFile := { skipCheckers := ["rls"] }

/-- A file whose NAME carries a test marker while the key-carrying line does
not. -/
def c10TestNamedFile : SrcFile :=
  { path := "test-keys.js", content := "const k = \"sk-abcdefghijklmnopqrstuv\"", isText := true }

/-- The Finding the API key checker emits for `c10TestNamedFile`. -/
def c10ExpectedFinding : CheckResult :=
  { id := "api-key-openai", name := "Exposed OpenAI API Key"
    description := "Found a hardcoded OpenAI API key in source code"
    severity := .critical, passed := false
    file := some "test-keys.js", line := some 1, column := some 11
    code := some "const k = \"sk-abcdefghijklmnopqrstuv\""
    details := "Hardcoded OpenAI API key found in test-keys.js:1"
    recommendation := some "Store OpenAI API keys in server-side environment variables" }

/-! ## Helper lemmas -/

/-- The severity-override step never changes a Finding's id. -/
theorem applySeverityOverride_id (config : Option ConfigFile) (f : CheckResult) :
    (applySeverityOverride config f).id = f.id := by
  unfold applySeverityOverride
  split
  · rfl
  · split
    · rfl
    · split <;> rfl

/-- Every Finding the per-line API-key scan emits is a failure. -/
theorem passed_false_of_mem_scanLineForPattern {kp : KeyPattern} {relativeFile : String}
    {lineIdx : Nat} {line : String} {r : CheckResult}
    (h : r ∈ scanLineForPattern kp relativeFile lineIdx line) : r.passed = false := by
  unfold scanLineForPattern at h
  rw [List.mem_filterMap] at h
  obtain ⟨m, -, hm⟩ := h
  split at hm
  · exact absurd hm (by simp)
  · dsimp only at hm
    split at hm
    · exact absurd hm (by simp)
    · cases hm
      rfl

/-- Every Finding the per-file API-key scan emits is a failure. -/
theorem passed_false_of_mem_scanApiKeyFile {ips : List String} {f : SrcFile}
    {r : CheckResult} (h : r ∈ scanApiKeyFile ips f) : r.passed = false := by
  unfold scanApiKeyFile at h
  split at h
  · exact absurd h (by simp)
  · split at h
    · exact absurd h (by simp)
    · split at h
      · exact absurd h (by simp)
      · split at h
        · exact absurd h (by simp)
        · rw [List.mem_flatMap] at h
          obtain ⟨kp, -, h⟩ := h
          rw [List.mem_flatMap] at h
          obtain ⟨li, -, h⟩ := h
          exact passed_false_of_mem_scanLineForPattern h

/-- Every Finding in the RLS failure lists is a failure. -/
theorem passed_false_of_mem_rlsFailures {st : RlsState} {r : CheckResult}
    (h : r ∈ (st.tables.filterMap fun kv =>
        if kv.2.hasRls then none else some (rlsTableFailure kv.1 kv.2)) ++
      st.policies.map rlsPolicyFailure) : r.passed = false := by
  rw [List.mem_append] at h
  rcases h with h | h
  · rw [List.mem_filterMap] at h
    obtain ⟨kv, -, hkv⟩ := h
    split at hkv
    · exact absurd hkv (by simp)
    · cases hkv
      rfl
  · rw [List.mem_map] at h
    obtain ⟨p, -, rfl⟩ := h
    rfl

/-- `apiKeyCheck` returns a non-empty list that is either all failures or a
single passing Finding. -/
theorem apiKeyCheck_shape (codeFiles : List SrcFile) (ips : List String) :
    apiKeyCheck codeFiles ips ≠ [] ∧
    ((∀ r ∈ apiKeyCheck codeFiles ips, r.passed = false) ∨
      ∃ p, apiKeyCheck codeFiles ips = [p] ∧ p.passed = true) := by
  unfold apiKeyCheck
  split
  · exact ⟨by simp, Or.inr ⟨apiKeyPassNoFiles, rfl, rfl⟩⟩
  · dsimp only
    split
    · exact ⟨by simp, Or.inr ⟨_, rfl, rfl⟩⟩
    · rename_i h2
      refine ⟨by simpa using h2, Or.inl ?_⟩
      intro r hr
      rw [List.mem_flatMap] at hr
      obtain ⟨f, -, hr⟩ := hr
      exact passed_false_of_mem_scanApiKeyFile hr

/-- `rlsCheck` returns a non-empty list that is either all failures or a
single passing Finding. -/
theorem rlsCheck_shape (sqlFiles : List SrcFile) :
    rlsCheck sqlFiles ≠ [] ∧
    ((∀ r ∈ rlsCheck sqlFiles, r.passed = false) ∨
      ∃ p, rlsCheck sqlFiles = [p] ∧ p.passed = true) := by
  unfold rlsCheck
  split
  · exact ⟨by simp, Or.inr ⟨rlsPassNoFiles, rfl, rfl⟩⟩
  · dsimp only
    split
    · exact ⟨by simp, Or.inr ⟨_, rfl, rfl⟩⟩
    · rename_i h2
      refine ⟨by simpa using h2, Or.inl ?_⟩
      intro r hr
      exact passed_false_of_mem_rlsFailures hr

/-- Decoding inverts the severity string. -/
theorem severityOfStr_toStr (s : Severity) : severityOfStr s.toStr = some s := by
  cases s <;> rfl

/-- Decoding inverts the location encoding. -/
theorem locationOfJson_locationToJson (l : Location) :
    locationOfJson (locationToJson l) = some l := by
  cases l
  rfl

/-- Decoding inverts the Finding encoding, every field included. -/
theorem findingOfJson_findingToJson (r : CheckResult) :
    findingOfJson (findingToJson r) = some r := by
  obtain ⟨id, name, desc, sev, passed, details, loc, file, line, col, code, rec⟩ := r
  cases loc <;> cases file <;> cases line <;> cases col <;> cases code <;> cases rec <;>
    simp [findingToJson, findingOfJson, jLookup, optStrField, optNatField,
      asStr, asNat, asBool, severityOfStr_toStr, locationOfJson_locationToJson]

/-- Decoding inverts the encoding of a whole Finding list. -/
theorem decodeFindings_map_findingToJson (results : List CheckResult) :
    decodeFindings (results.map findingToJson) = some results := by
  induction results with
  | nil => rfl
  | cons r rs ih =>
    simp [decodeFindings, findingOfJson_findingToJson, ih]

/-! ## Claim theorems -/

/-- C1: the spec claims every interpolated Finding text field (name, details,
recommendation, code) is HTML-entity-escaped before being embedded in the
page.  The code contradicts this: `generateIssueCard` passes only the
`data-issue` copy text and `location.code` through `escapeHtml`, while
`name`, `details` and `recommendation` are interpolated verbatim, so a
Finding whose `details` carries markup puts a raw `<script>` element into the
page — which `escapeHtml` (second conjunct) would have neutralised had it
been applied. -/
theorem html_card_embeds_details_unescaped :
    containsSub (generateIssueCard c1BadFinding "critical") "<script>alert(1)</script>" = true ∧
    containsSub (escapeHtml "<script>alert(1)</script>") "<script>" = false := by
  constructor <;> decide

/-- C2: if one enabled checker throws, `runCheckers` appends exactly one
synthetic Finding in its place — id `<checker-id>-error`, medium severity,
the checker's name, the stringified error — and the Findings of every other
checker, before and after it, are kept unchanged. -/
theorem runCheckers_error_resilience (pre post : List RunChecker) (c : RunChecker)
    (e : String) (h : c.run = .error e) :
    runCheckers (pre ++ c :: post)
      = runCheckers pre ++ [checkerErrorFinding c e] ++ runCheckers post ∧
    (checkerErrorFinding c e).id = c.id ++ "-error" ∧
    (checkerErrorFinding c e).severity = Severity.medium ∧
    (checkerErrorFinding c e).name = c.name ++ " Error" ∧
    (checkerErrorFinding c e).details = "Error: " ++ e ∧
    (checkerErrorFinding c e).passed = false := by
  refine ⟨?_, rfl, rfl, rfl, rfl, rfl⟩
  induction pre with
  | nil => simp [runCheckers, h]
  | cons x xs ih => simp [runCheckers, ih]

/-- Witness for C2: a concrete registry of one succeeding and one throwing
checker. -/
theorem runCheckers_error_resilience_witness :
    c2FailChecker.run = .error "boom" ∧
    runCheckers [c2OkChecker, c2FailChecker]
      = runCheckers [c2OkChecker] ++ [checkerErrorFinding c2FailChecker "boom"] ++
        runCheckers [] :=
  ⟨rfl, (runCheckers_error_resilience [c2OkChecker] [] c2FailChecker "boom" rfl).1⟩

/-- C3: for the two embedded checkers (the API-key checker and the RLS
checker), the non-error Finding list is never empty: it is either one or more
`passed:false` Findings or exactly one `passed:true` Finding, and on an input
with no matching files it is exactly the one passing Finding. -/
theorem checker_result_list_never_empty (codeFiles sqlFiles : List SrcFile)
    (ignorePatterns : List String) :
    (apiKeyCheck codeFiles ignorePatterns ≠ [] ∧
      ((∀ r ∈ apiKeyCheck codeFiles ignorePatterns, r.passed = false) ∨
        ∃ p, apiKeyCheck codeFiles ignorePatterns = [p] ∧ p.passed = true)) ∧
    (rlsCheck sqlFiles ≠ [] ∧
      ((∀ r ∈ rlsCheck sqlFiles, r.passed = false) ∨
        ∃ p, rlsCheck sqlFiles = [p] ∧ p.passed = true)) ∧
    apiKeyCheck [] ignorePatterns = [apiKeyPassNoFiles] ∧
    apiKeyPassNoFiles.passed = true ∧
    rlsCheck [] = [rlsPassNoFiles] ∧
    rlsPassNoFiles.passed = true :=
  ⟨apiKeyCheck_shape codeFiles ignorePatterns, rlsCheck_shape sqlFiles,
   rfl, rfl, rfl, rfl⟩

/-- Witness for C3: both checkers on an empty file list. -/
theorem checker_result_list_never_empty_witness :
    apiKeyCheck [] [] = [apiKeyPassNoFiles] ∧ rlsCheck [] = [rlsPassNoFiles] :=
  ⟨(checker_result_list_never_empty [] [] []).2.2.1,
   (checker_result_list_never_empty [] [] []).2.2.2.2.1⟩

/-- C4: a Finding whose id is in `ignoreIssues` never appears in the
post-processed output, and the remaining Findings keep their ids and order
(the id sequence of the output is exactly the id sequence of the non-ignored
input Findings). -/
theorem ignored_ids_never_in_output (results : List CheckResult)
    (config : Option ConfigFile) :
    (∀ f ∈ postProcessResults results config, isIssueIgnored f.id config = false) ∧
    (postProcessResults results config).map CheckResult.id
      = (results.filter (fun r => !isIssueIgnored r.id config)).map CheckResult.id := by
  constructor
  · intro f hf
    unfold postProcessResults at hf
    rw [List.mem_map] at hf
    obtain ⟨a, ha, rfl⟩ := hf
    rw [List.mem_filter] at ha
    rw [applySeverityOverride_id]
    simpa using ha.2
  · unfold postProcessResults
    rw [List.map_map]
    exact List.map_congr_left (fun a _ => applySeverityOverride_id config a)

/-- Witness for C4: a concrete config suppressing one of two Findings. -/
theorem ignored_ids_never_in_output_witness :
    (∀ f ∈ postProcessResults c4Results (some c4Config),
        isIssueIgnored f.id (some c4Config) = false) ∧
    (postProcessResults c4Results (some c4Config)).map CheckResult.id
      = (c4Results.filter (fun r => !isIssueIgnored r.id (some c4Config))).map CheckResult.id :=
  ignored_ids_never_in_output c4Results (some c4Config)

/-- C5: a `passed:false` Finding whose id has a severity override different
from its severity is replaced by a new Finding with the overridden severity
and a note appended to `details` recording old and new value; the id is
unchanged and a `passed:true` Finding is never severity-overridden. -/
theorem severity_override_produces_new_finding (config : Option ConfigFile)
    (f : CheckResult) (s : Severity)
    (hpass : f.passed = false)
    (hov : getSeverityOverride f.id config = some s)
    (hne : s ≠ f.severity) :
    applySeverityOverride config f
      = { f with severity := s, details := f.details ++ overrideNote f.severity s } ∧
    (applySeverityOverride config f).severity = s ∧
    (applySeverityOverride config f).id = f.id ∧
    (∀ g : CheckResult, g.passed = true → applySeverityOverride config g = g) := by
  have h1 : applySeverityOverride config f
      = { f with severity := s, details := f.details ++ overrideNote f.severity s } := by
    unfold applySeverityOverride
    rw [if_neg (by simp [hpass]), hov]
    dsimp only
    rw [if_neg hne]
  refine ⟨h1, by rw [h1], by rw [h1], ?_⟩
  intro g hg
  unfold applySeverityOverride
  rw [if_pos (by simp [hg])]

/-- Witness for C5: the override of a concrete failed Finding. -/
theorem severity_override_produces_new_finding_witness :
    (c5Finding.passed = false ∧
     getSeverityOverride c5Finding.id (some c5Config) = some Severity.critical ∧
     Severity.critical ≠ c5Finding.severity) ∧
    applySeverityOverride (some c5Config) c5Finding
      = { c5Finding with
          severity := Severity.critical
          details := c5Finding.details ++ overrideNote c5Finding.severity Severity.critical } :=
  ⟨⟨rfl, rfl, by decide⟩,
   (severity_override_produces_new_finding (some c5Config) c5Finding Severity.critical
     rfl rfl (by decide)).1⟩

/-- C6 counterexample: the spec claims a format outside the supported set
fails with an explicit unsupported-format error; instead, requesting the
unsupported format `pdf` succeeds and silently renders the markdown report
(the `default` arm of the `switch`). -/
theorem unsupported_format_silently_renders_markdown :
    generateReport c6Results "pdf" "2026-02-03"
      = .ok (generateMarkdownReport c6Results true "2026-02-03") ∧
    (generateReport c6Results "pdf" "2026-02-03").isOk = true := by
  constructor <;> rfl

/-- C6 as amended: a requested format other than `html`, `json` and `text` —
the supported `markdown` and every unsupported string alike — never produces
an error: it renders the markdown report. -/
theorem unknown_format_renders_markdown (results : List CheckResult)
    (format now : String)
    (h1 : format ≠ "html") (h2 : format ≠ "json") (h3 : format ≠ "text") :
    generateReport results format now = .ok (generateMarkdownReport results true now) := by
  unfold generateReport generateReportFileContent
  rw [if_neg h1, if_neg h2, if_neg h3]

/-- Witness for the amended C6: the unsupported format `yaml`. -/
theorem unknown_format_renders_markdown_witness :
    (("yaml" : String) ≠ "html" ∧ ("yaml" : String) ≠ "json" ∧ ("yaml" : String) ≠ "text") ∧
    generateReport [] "yaml" "t0" = .ok (generateMarkdownReport [] true "t0") :=
  ⟨⟨by decide, by decide, by decide⟩,
   unknown_format_renders_markdown [] "yaml" "t0" (by decide) (by decide) (by decide)⟩

/-- C7 counterexample: the spec claims a checker never swallows an unexpected
exception and converts it into a returned Finding; both embedded checkers do
exactly that — a collaborator failure is caught inside `check()` and returned
as a `passed:false` error Finding with a successful (non-throwing) result. -/
theorem checker_converts_exception_to_finding :
    apiKeyCheckerCheck (.error "EIO: i/o error") []
      = .ok [apiKeyErrorFinding "EIO: i/o error"] ∧
    rlsCheckerCheck (.error "EIO: i/o error")
      = .ok [rlsErrorFinding "EIO: i/o error"] ∧
    (apiKeyErrorFinding "EIO: i/o error").passed = false ∧
    (rlsErrorFinding "EIO: i/o error").id = "supabase-rls-error" :=
  ⟨rfl, rfl, rfl, rfl⟩

/-- C7 as amended: each checker traps its own unexpected exceptions — any
error from the collaborator becomes a returned `<id>-error` Finding — and
`check()` itself never propagates an exception, whatever the collaborator
does. -/
theorem checkers_catch_their_own_errors (e : String) (ips : List String)
    (filesA sqlA : Except String (List SrcFile)) :
    apiKeyCheckerCheck (.error e) ips = .ok [apiKeyErrorFinding e] ∧
    rlsCheckerCheck (.error e) = .ok [rlsErrorFinding e] ∧
    (∃ rs, apiKeyCheckerCheck filesA ips = .ok rs) ∧
    (∃ rs, rlsCheckerCheck sqlA = .ok rs) := by
  refine ⟨rfl, rfl, ?_, ?_⟩
  · cases filesA <;> exact ⟨_, rfl⟩
  · cases sqlA <;> exact ⟨_, rfl⟩

/-- C8: the spec (and the project README) claims the checkers run are the
registry minus the union of the config file's `skipCheckers` and the CLI skip
list.  The code filters only by the CLI-assembled `options.skipCheckers`: a
checker listed in the loaded config's `skipCheckers` (second conjunct) still
runs and contributes its Findings (first conjunct), while the same id in the
CLI skip list removes it entirely (third conjunct). -/
theorem config_skip_list_not_honored :
    vibeCheckRunCheckers [c8CheckerA, c8CheckerB]
        (mkCliScanOptions "." [] [] (some c8Config))
      = [c8FindingA, c8FindingB] ∧
    c8Config.skipCheckers = ["rls"] ∧
    vibeCheckRunCheckers [c8CheckerA, c8CheckerB]
        (mkCliScanOptions "." [] ["rls"] none)
      = [c8FindingA] := by
  refine ⟨?_, rfl, ?_⟩ <;> rfl

/-- C9: rendering a Finding list to the structured JSON report and reading it
back yields the summary counts of the list and the very same Finding list, in
order, with no loss of fields (`JSON.stringify`/`parse` modelled at the JSON
tree level). -/
theorem json_report_roundtrip (results : List CheckResult) (now : String) :
    reportOfJson (generateJsonReport results now)
      = some { total := results.length
               passedCount := (results.filter (fun r => r.passed)).length
               failedCount := (results.filter (fun r => !r.passed)).length
               timestamp := now
               results := results } := by
  simp [generateJsonReport, reportOfJson, jLookup, asNat, asStr,
    decodeFindings_map_findingToJson]

/-- C10 counterexample: the spec claims a key embedded in a file whose name
carries a test/example marker produces no Finding; the checker consults only
the matched line's text, so a marker-free key line inside `test-keys.js` is
flagged as a `passed:false` Finding attributed to that file. -/
theorem key_in_test_named_file_still_flagged :
    apiKeyCheck [c10TestNamedFile] [] = [c10ExpectedFinding] ∧
    c10ExpectedFinding.passed = false ∧
    c10ExpectedFinding.file = some "test-keys.js" := by
  refine ⟨by decide, rfl, rfl⟩

/-- C10 as amended: the example/test suppression of the API-key checker is
line-content based — a match on a line whose lower-cased text contains
`example`, `placeholder`, `test`, `mock` or `fake` is never turned into a
Finding, for every pattern of the table; markers in the file name alone do
not suppress (see the counterexample). -/
theorem marker_line_never_flagged (kp : KeyPattern) (relativeFile : String)
    (lineIdx : Nat) (line : String)
    (h : lineHasTestMarker line = true) :
    scanLineForPattern kp relativeFile lineIdx line = [] := by
  unfold scanLineForPattern
  rw [List.filterMap_eq_nil_iff]
  intro m _
  simp [h]

/-- Witness for the amended C10: a key-bearing line carrying the `example`
marker is suppressed. -/
theorem marker_line_never_flagged_witness :
    lineHasTestMarker "exampleKey = \"sk-abcdefghijklmnopqrstuv\"" = true ∧
    scanLineForPattern openaiPattern "config.js" 0
      "exampleKey = \"sk-abcdefghijklmnopqrstuv\"" = [] :=
  ⟨by decide,
   marker_line_never_flagged openaiPattern "config.js" 0
     "exampleKey = \"sk-abcdefghijklmnopqrstuv\"" (by decide)⟩
